import Mathlib

/-!
Shallow embedding of the weather MCP server (OpenWeatherMap proxy).

The embedding models the response-shaping layer and the JSON-RPC/MCP
dispatch layer of the repository:

* `weather_api.py` — `OpenWeatherMapAPI.format_weather_data` and
  `OpenWeatherMapAPI.format_forecast_data`;
* `src/weather_service.py` — `WeatherService.get_current_weather`,
  `WeatherService.get_forecast`, `WeatherService.format_weather_response`
  and `WeatherService.format_forecast_data`;
* `mcp_server.py` — `handle_mcp_message` and the per-line handling of
  `run_mcp_stdio_server`;
* `mcp_server_http.py` — the `/mcp` endpoint (`mcp_endpoint`) together with
  `geocode_location`, both modelled with the two outbound HTTP collaborators
  (geocoding, weather fetch) abstracted as function parameters.

Raw provider JSON is modelled by structures whose fields are `Option`-typed:
`none` plays the role of Python's "key absent" (`dict.get` returning `None`).
Numbers are `ℚ`, which models every finite JSON/float number occurring here;
the only operations the code performs on them are moving them around and the
order comparisons of coordinate validation, on which `ℚ` and IEEE floats
agree for finite values.  Python functions that raise are modelled with
`Except`/`Option` results.
-/

/-- A JSON value, used where the code manipulates heterogeneous dictionaries
(the output shape of the daily-forecast entries, JSON-RPC ids and params). -/
inductive JVal where
  | null : JVal
  | bool : Bool → JVal
  | num : ℚ → JVal
  | str : String → JVal
  | arr : List JVal → JVal
  | obj : List (String × JVal) → JVal

/-- Association lookup in a JSON object, as Python `dict[key]` on the literal
dicts the formatters build. -/
def jlookup (k : String) : List (String × JVal) → Option JVal
  | [] => none
  | (k2, v) :: rest => if k2 = k then some v else jlookup k rest

/-- An element of a provider `weather` array.  The code only ever reads the
`main` and `description` keys. -/
structure WeatherInfo where
  main : Option String
  description : Option String
deriving Repr, DecidableEq

/-- The empty dict `{}` used by the formatters as the fallback weather info. -/
def emptyWeatherInfo : WeatherInfo := { main := none, description := none }

/-- The `temp` sub-object of a daily forecast entry. -/
structure RawTemp where
  day : Option ℚ
  min : Option ℚ
  max : Option ℚ
  night : Option ℚ
  eve : Option ℚ
  morn : Option ℚ
deriving Repr, DecidableEq

/-- The empty dict `{}` default for a missing `temp` key. -/
def emptyRawTemp : RawTemp :=
  { day := none, min := none, max := none, night := none, eve := none, morn := none }

/-- The `feels_like` sub-object of a daily forecast entry. -/
structure RawFeels where
  day : Option ℚ
  night : Option ℚ
  eve : Option ℚ
  morn : Option ℚ
deriving Repr, DecidableEq

/-- The empty dict `{}` default for a missing `feels_like` key. -/
def emptyRawFeels : RawFeels :=
  { day := none, night := none, eve := none, morn := none }

/-- The `current` sub-object of a One Call API response.  Every key may be
absent (`none`). -/
structure RawCurrent where
  dt : Option ℚ
  temp : Option ℚ
  feels_like : Option ℚ
  pressure : Option ℚ
  humidity : Option ℚ
  dew_point : Option ℚ
  uvi : Option ℚ
  clouds : Option ℚ
  visibility : Option ℚ
  wind_speed : Option ℚ
  wind_deg : Option ℚ
  weather : Option (List WeatherInfo)
deriving Repr, DecidableEq

/-- The empty dict `{}` default for a missing `current` key. -/
def emptyRawCurrent : RawCurrent :=
  { dt := none, temp := none, feels_like := none, pressure := none,
    humidity := none, dew_point := none, uvi := none, clouds := none,
    visibility := none, wind_speed := none, wind_deg := none, weather := none }

/-- An element of the provider `daily` array. -/
structure RawDaily where
  dt : Option ℚ
  temp : Option RawTemp
  feels_like : Option RawFeels
  pressure : Option ℚ
  humidity : Option ℚ
  wind_speed : Option ℚ
  wind_deg : Option ℚ
  clouds : Option ℚ
  pop : Option ℚ
  uvi : Option ℚ
  rain : Option ℚ
  snow : Option ℚ
  weather : Option (List WeatherInfo)
deriving Repr, DecidableEq

/-- A daily entry with every key absent (the raw dict `{}`). -/
def emptyRawDaily : RawDaily :=
  { dt := none, temp := none, feels_like := none, pressure := none,
    humidity := none, wind_speed := none, wind_deg := none, clouds := none,
    pop := none, uvi := none, rain := none, snow := none, weather := none }

/-- An element of the provider `hourly` array. -/
structure RawHourly where
  dt : Option ℚ
  temp : Option ℚ
  feels_like : Option ℚ
  humidity : Option ℚ
  pop : Option ℚ
  wind_speed : Option ℚ
  weather : Option (List WeatherInfo)
deriving Repr, DecidableEq

/-- A raw One Call API response body (the argument of all four formatters). -/
structure RawOneCall where
  lat : Option ℚ
  lon : Option ℚ
  timezone : Option String
  current : Option RawCurrent
  daily : Option (List RawDaily)
  hourly : Option (List RawHourly)
deriving Repr, DecidableEq

/-- `RawOneCall` with every key absent. -/
def emptyRawOneCall : RawOneCall :=
  { lat := none, lon := none, timezone := none, current := none,
    daily := none, hourly := none }

namespace OpenWeatherMapAPI

/-- `weather_list = x.get("weather", [{}]); weather_info = weather_list[0] if
weather_list else {}` — the idiom of `weather_api.py` (used for current,
hourly and daily entries): a missing key defaults to `[{}]`, an empty list
falls back to `{}`, otherwise the first element is taken. -/
def weather_info_of (weather : Option (List WeatherInfo)) : WeatherInfo :=
  match weather.getD [emptyWeatherInfo] with
  | [] => emptyWeatherInfo
  | w :: _ => w

/-- Output shape of `OpenWeatherMapAPI.format_weather_data`. -/
structure FormattedWeather where
  temperature : Option ℚ
  feels_like : Option ℚ
  humidity : Option ℚ
  pressure : Option ℚ
  wind_speed : Option ℚ
  wind_deg : Option ℚ
  weather : String
  weather_main : String
  clouds : Option ℚ
  visibility : Option ℚ
  uvi : Option ℚ
  timezone : Option String
  lat : Option ℚ
  lon : Option ℚ
deriving Repr, DecidableEq

/-- `OpenWeatherMapAPI.format_weather_data` (`weather_api.py`, lines 97–128):
flattens the `current` sub-object, with `weather`/`weather_main` taken from
the first element of the `weather` list and defaulting to `"N/A"`. -/
def format_weather_data (weather_data : RawOneCall) : FormattedWeather :=
  let current := weather_data.current.getD emptyRawCurrent
  let weather_info := weather_info_of current.weather
  { temperature := current.temp
    feels_like := current.feels_like
    humidity := current.humidity
    pressure := current.pressure
    wind_speed := current.wind_speed
    wind_deg := current.wind_deg
    weather := weather_info.description.getD "N/A"
    weather_main := weather_info.main.getD "N/A"
    clouds := current.clouds
    visibility := current.visibility
    uvi := current.uvi
    timezone := weather_data.timezone
    lat := weather_data.lat
    lon := weather_data.lon }

/-- Output shape of an hourly entry of `OpenWeatherMapAPI.format_forecast_data`. -/
structure HourlyEntry where
  dt : Option ℚ
  temp : Option ℚ
  feels_like : Option ℚ
  humidity : Option ℚ
  weather : String
  weather_main : String
  pop : Option ℚ
  wind_speed : Option ℚ
deriving Repr, DecidableEq

/-- Body of the `for hour in hourly_list[:48]` loop of
`OpenWeatherMapAPI.format_forecast_data`. -/
def format_hour_entry (hour : RawHourly) : HourlyEntry :=
  let weather_info := weather_info_of hour.weather
  { dt := hour.dt
    temp := hour.temp
    feels_like := hour.feels_like
    humidity := hour.humidity
    weather := weather_info.description.getD "N/A"
    weather_main := weather_info.main.getD "N/A"
    pop := hour.pop
    wind_speed := hour.wind_speed }

/-- Output shape of a daily entry of `OpenWeatherMapAPI.format_forecast_data`. -/
structure DailyEntry where
  dt : Option ℚ
  temp_min : Option ℚ
  temp_max : Option ℚ
  temp_day : Option ℚ
  temp_night : Option ℚ
  humidity : Option ℚ
  weather : String
  weather_main : String
  pop : Option ℚ
  wind_speed : Option ℚ
  uvi : Option ℚ
deriving Repr, DecidableEq

/-- Body of the `for day in daily_list[:8]` loop of
`OpenWeatherMapAPI.format_forecast_data`; `temp = day.get("temp", {})`. -/
def format_day_entry (day : RawDaily) : DailyEntry :=
  let weather_info := weather_info_of day.weather
  let temp := day.temp.getD emptyRawTemp
  { dt := day.dt
    temp_min := temp.min
    temp_max := temp.max
    temp_day := temp.day
    temp_night := temp.night
    humidity := day.humidity
    weather := weather_info.description.getD "N/A"
    weather_main := weather_info.main.getD "N/A"
    pop := day.pop
    wind_speed := day.wind_speed
    uvi := day.uvi }

/-- Output shape of `OpenWeatherMapAPI.format_forecast_data`. -/
structure FormattedForecast where
  current : FormattedWeather
  hourly : List HourlyEntry
  daily : List DailyEntry
  timezone : Option String
deriving Repr, DecidableEq

/-- `OpenWeatherMapAPI.format_forecast_data` (`weather_api.py`, lines
130–186): formats `current` via `format_weather_data`, the first 48 hourly
entries (`hourly_list[:48]`) and the first 8 daily entries
(`daily_list[:8]`), in source order. -/
def format_forecast_data (forecast_data : RawOneCall) : FormattedForecast :=
  { current := format_weather_data forecast_data
    hourly := ((forecast_data.hourly.getD []).take 48).map format_hour_entry
    daily := ((forecast_data.daily.getD []).take 8).map format_day_entry
    timezone := forecast_data.timezone }

end OpenWeatherMapAPI

namespace WeatherService

/-- What `src/weather_service.py` assembles into the `params` dict of the
outbound `requests.get` call. -/
structure RequestParams where
  lat : ℚ
  lon : ℚ
  appid : String
  units : String
  lang : String
  exclude : Option String
deriving Repr, DecidableEq

/-- The `ValueError` raised by coordinate validation, carrying the offending
value (the Python message is `"Invalid latitude: {v}. Must be between -90 and
90."` and its longitude analogue; the float-to-text rendering is elided). -/
inductive CoordError where
  | invalidLatitude : ℚ → CoordError
  | invalidLongitude : ℚ → CoordError
deriving Repr, DecidableEq

/-- `WeatherService.get_current_weather` (`src/weather_service.py`, lines
16–75) up to its outbound call: validates the coordinates with
`if not (-90 <= latitude <= 90)` / `if not (-180 <= longitude <= 180)` and
then builds the request params (with `exclude` set to only current weather).
`.ok p` means the HTTP GET with params `p` is issued; `.error e` means the
`ValueError` is raised before any network call. -/
def get_current_weather (api_key : String) (latitude longitude : ℚ)
    (units : String := "metric") (lang : String := "en") :
    Except CoordError RequestParams :=
  if ¬ (-90 ≤ latitude ∧ latitude ≤ 90) then
    .error (.invalidLatitude latitude)
  else if ¬ (-180 ≤ longitude ∧ longitude ≤ 180) then
    .error (.invalidLongitude longitude)
  else
    .ok { lat := latitude, lon := longitude, appid := api_key,
          units := units, lang := lang,
          exclude := some "minutely,hourly,daily,alerts" }

/-- `WeatherService.get_forecast` (`src/weather_service.py`, lines 113–171)
up to its outbound call: same validation, no `exclude` key. -/
def get_forecast (api_key : String) (latitude longitude : ℚ)
    (units : String := "metric") (lang : String := "en") :
    Except CoordError RequestParams :=
  if ¬ (-90 ≤ latitude ∧ latitude ≤ 90) then
    .error (.invalidLatitude latitude)
  else if ¬ (-180 ≤ longitude ∧ longitude ≤ 180) then
    .error (.invalidLongitude longitude)
  else
    .ok { lat := latitude, lon := longitude, appid := api_key,
          units := units, lang := lang, exclude := none }

/-- `current.get("weather", [{}])[0] if current.get("weather") else {}` — the
idiom of `src/weather_service.py`: a missing or empty (falsy) `weather` list
yields the empty dict `{}`, otherwise the first element. -/
def first_weather (weather : Option (List WeatherInfo)) : WeatherInfo :=
  match weather with
  | some (w :: _) => w
  | _ => emptyWeatherInfo

/-- The `location` sub-object of the formatted responses. -/
structure Location where
  latitude : Option ℚ
  longitude : Option ℚ
  timezone : Option String
deriving Repr, DecidableEq

/-- The `current` sub-object of `format_weather_response`.  The `weather`
field is always a dict (first raw element or `{}`), never null. -/
structure CurrentOut where
  timestamp : Option ℚ
  temperature : Option ℚ
  feels_like : Option ℚ
  pressure : Option ℚ
  humidity : Option ℚ
  dew_point : Option ℚ
  uvi : Option ℚ
  clouds : Option ℚ
  visibility : Option ℚ
  wind_speed : Option ℚ
  wind_deg : Option ℚ
  weather : WeatherInfo
deriving Repr, DecidableEq

/-- Output shape of `WeatherService.format_weather_response`. -/
structure FormattedResponse where
  location : Location
  current : CurrentOut
deriving Repr, DecidableEq

/-- `WeatherService.format_weather_response` (`src/weather_service.py`, lines
77–111). -/
def format_weather_response (raw_data : RawOneCall) : FormattedResponse :=
  let current := raw_data.current.getD emptyRawCurrent
  { location :=
      { latitude := raw_data.lat
        longitude := raw_data.lon
        timezone := raw_data.timezone }
    current :=
      { timestamp := current.dt
        temperature := current.temp
        feels_like := current.feels_like
        pressure := current.pressure
        humidity := current.humidity
        dew_point := current.dew_point
        uvi := current.uvi
        clouds := current.clouds
        visibility := current.visibility
        wind_speed := current.wind_speed
        wind_deg := current.wind_deg
        weather := first_weather current.weather } }

/-- The `current` sub-object of `format_forecast_data` (no `dew_point`). -/
structure ForecastCurrentOut where
  timestamp : Option ℚ
  temperature : Option ℚ
  feels_like : Option ℚ
  pressure : Option ℚ
  humidity : Option ℚ
  uvi : Option ℚ
  clouds : Option ℚ
  visibility : Option ℚ
  wind_speed : Option ℚ
  wind_deg : Option ℚ
  weather : WeatherInfo
deriving Repr, DecidableEq

/-- A daily entry of `WeatherService.format_forecast_data`.  `temp` and
`feels_like` are always dicts of (possibly null) components; `rain` and
`snow` default to the number `0` when the key is absent; `weather` is always
a dict, never null. -/
structure DailyOut where
  dt : Option ℚ
  temp : RawTemp
  feels_like : RawFeels
  pressure : Option ℚ
  humidity : Option ℚ
  wind_speed : Option ℚ
  wind_deg : Option ℚ
  clouds : Option ℚ
  rain : ℚ
  snow : ℚ
  weather : WeatherInfo
deriving Repr, DecidableEq

/-- An hourly entry of `WeatherService.format_forecast_data`. -/
structure HourlyOut where
  dt : Option ℚ
  temperature : Option ℚ
  feels_like : Option ℚ
  humidity : Option ℚ
  wind_speed : Option ℚ
  weather : WeatherInfo
deriving Repr, DecidableEq

/-- Output shape of `WeatherService.format_forecast_data`. -/
structure ForecastOut where
  location : Location
  current : ForecastCurrentOut
  daily : List DailyOut
  hourly : List HourlyOut
deriving Repr, DecidableEq

/-- Body of the `for day in daily` comprehension of
`WeatherService.format_forecast_data` (`src/weather_service.py`, lines
206–233): `temp`/`feels_like` are rebuilt component-wise from
`day.get("temp", {})` / `day.get("feels_like", {})`, `rain`/`snow` use
`day.get("rain", 0)` / `day.get("snow", 0)`, and `weather` is the first raw
element or `{}`. -/
def format_daily_entry (day : RawDaily) : DailyOut :=
  let temp := day.temp.getD emptyRawTemp
  let feels := day.feels_like.getD emptyRawFeels
  { dt := day.dt
    temp :=
      { day := temp.day, min := temp.min, max := temp.max,
        night := temp.night, eve := temp.eve, morn := temp.morn }
    feels_like :=
      { day := feels.day, night := feels.night, eve := feels.eve,
        morn := feels.morn }
    pressure := day.pressure
    humidity := day.humidity
    wind_speed := day.wind_speed
    wind_deg := day.wind_deg
    clouds := day.clouds
    rain := day.rain.getD 0
    snow := day.snow.getD 0
    weather := first_weather day.weather }

/-- Body of the `for hour in hourly` comprehension of
`WeatherService.format_forecast_data` (`src/weather_service.py`, lines
234–244). -/
def format_hourly_entry (hour : RawHourly) : HourlyOut :=
  { dt := hour.dt
    temperature := hour.temp
    feels_like := hour.feels_like
    humidity := hour.humidity
    wind_speed := hour.wind_speed
    weather := first_weather hour.weather }

/-- `WeatherService.format_forecast_data` (`src/weather_service.py`, lines
173–247).  Note: the comprehensions run over the whole `daily` and `hourly`
arrays — this formatter applies no cap. -/
def format_forecast_data (raw_data : RawOneCall) : ForecastOut :=
  let current := raw_data.current.getD emptyRawCurrent
  { location :=
      { latitude := raw_data.lat
        longitude := raw_data.lon
        timezone := raw_data.timezone }
    current :=
      { timestamp := current.dt
        temperature := current.temp
        feels_like := current.feels_like
        pressure := current.pressure
        humidity := current.humidity
        uvi := current.uvi
        clouds := current.clouds
        visibility := current.visibility
        wind_speed := current.wind_speed
        wind_deg := current.wind_deg
        weather := first_weather current.weather }
    daily := (raw_data.daily.getD []).map format_daily_entry
    hourly := (raw_data.hourly.getD []).map format_hourly_entry }

/-- Renders an `Option ℚ` output field as the JSON value the service returns
(`None` becomes JSON null). -/
def onum : Option ℚ → JVal
  | none => .null
  | some q => .num q

/-- Renders a formatted `weather` dict as JSON: only the keys present in the
raw element appear (the code passes the raw dict through unchanged; a missing
or empty raw list yields the empty object `{}`). -/
def WeatherInfo.toJVal (w : WeatherInfo) : JVal :=
  .obj ((w.main.map fun s => ("main", JVal.str s)).toList ++
        (w.description.map fun s => ("description", JVal.str s)).toList)

/-- The JSON object a `DailyOut` entry serialises to, key for key as the dict
literal in `src/weather_service.py`, lines 206–233. -/
def DailyOut.toJson (e : DailyOut) : List (String × JVal) :=
  [ ("dt", onum e.dt),
    ("temp", .obj [ ("day", onum e.temp.day), ("min", onum e.temp.min),
                    ("max", onum e.temp.max), ("night", onum e.temp.night),
                    ("eve", onum e.temp.eve), ("morn", onum e.temp.morn) ]),
    ("feels_like", .obj [ ("day", onum e.feels_like.day),
                          ("night", onum e.feels_like.night),
                          ("eve", onum e.feels_like.eve),
                          ("morn", onum e.feels_like.morn) ]),
    ("pressure", onum e.pressure),
    ("humidity", onum e.humidity),
    ("wind_speed", onum e.wind_speed),
    ("wind_deg", onum e.wind_deg),
    ("clouds", onum e.clouds),
    ("rain", .num e.rain),
    ("snow", .num e.snow),
    ("weather", WeatherInfo.toJVal e.weather) ]

end WeatherService

namespace McpServer

/-- A JSON-RPC 2.0 error object. -/
structure RpcError where
  code : Int
  message : String
deriving Repr, DecidableEq

/-- The static result payloads `handle_mcp_message` can build, plus the
responses produced by `handle_tool_call` (whose body depends on the HTTP
backend and is abstracted by an oracle below). -/
inductive RpcResultPayload where
  | initCaps : RpcResultPayload
  | toolsList : RpcResultPayload
  | toolContent : String → RpcResultPayload
deriving Repr, DecidableEq

/-- A JSON-RPC response as `mcp_server.py` builds it: an `id` (the model
conflates a missing and a null `id`, exactly as `message.get("id")` does),
and either a result or an error. -/
structure RpcResponse where
  id : Option JVal
  result : Option RpcResultPayload
  error : Option RpcError

/-- An inbound JSON-RPC message, after `json.loads`.  `message.get("id")`,
`message.get("method")` and `message.get("params", {})` are modelled by the
`Option` fields (`id = none` stands for an omitted — or null — `id`). -/
structure JsonRpcMessage where
  jsonrpc : Option String
  id : Option JVal
  method : Option String
  params : Option JVal

/-- Python string conversion of a value that is either a string or `None`,
as used by the `f"Method not found: {method}"` message. -/
def pyShow : Option String → String
  | some s => s
  | none => "None"

/-- `handle_mcp_message` (`mcp_server.py`, lines 222–326).  `toolCall`
abstracts `handle_tool_call` (which issues an HTTP request to the local
backend and, in the source, returns a response dict on every path).  The
source checks the three known methods first; only afterwards does it treat a
message without `id` as a notification, and otherwise answers with the
-32601 "Method not found" error. -/
def handle_mcp_message (toolCall : Option JVal → JVal → RpcResponse)
    (message : JsonRpcMessage) : Option RpcResponse :=
  let msg_id := message.id
  let params := message.params.getD (.obj [])
  if message.method = some "initialize" then
    some { id := msg_id, result := some .initCaps, error := none }
  else if message.method = some "tools/list" then
    some { id := msg_id, result := some .toolsList, error := none }
  else if message.method = some "tools/call" then
    some (toolCall msg_id params)
  else
    match msg_id with
    | none => none
    | some _ =>
      some { id := msg_id, result := none,
             error := some { code := -32601,
                             message := "Method not found: " ++ pyShow message.method } }

/-- One line read by the stdio loop of `run_mcp_stdio_server`
(`mcp_server.py`, lines 170–212), after `line.strip()`: it is blank, or it is
not well-formed JSON (`json.loads` raises `JSONDecodeError`), or it parses to
a message. -/
inductive StdioLine where
  | blank : StdioLine
  | malformed : StdioLine
  | wellFormed : JsonRpcMessage → StdioLine

/-- The response (if any) that one iteration of the stdio loop prints for a
line: blank lines are skipped, malformed JSON is answered with the -32700
"Parse error" response with a null `id`, and well-formed messages go through
`handle_mcp_message` (whose `None` result, for notifications, prints
nothing). -/
def stdio_line_response (toolCall : Option JVal → JVal → RpcResponse)
    (line : StdioLine) : Option RpcResponse :=
  match line with
  | .blank => none
  | .malformed =>
      some { id := none, result := none,
             error := some { code := -32700, message := "Parse error" } }
  | .wellFormed message => handle_mcp_message toolCall message

end McpServer

namespace McpHttp

open McpServer (RpcError)

/-- The `arguments` dict of a `tools/call` request to the HTTP MCP server.
A field is `none` when the key is absent. -/
structure ToolArguments where
  location : Option String
  latitude : Option ℚ
  longitude : Option ℚ
  units : Option String
  lang : Option String
deriving Repr, DecidableEq

/-- `arguments` with no keys (`params.get("arguments", {})`). -/
def emptyToolArguments : ToolArguments :=
  { location := none, latitude := none, longitude := none,
    units := none, lang := none }

/-- The `params` dict of an `MCPRequest`. -/
structure McpParams where
  name : Option String
  arguments : Option ToolArguments
deriving Repr, DecidableEq

/-- A validated `MCPRequest` (pydantic model of `mcp_server_http.py`):
`method` and `id` are required fields, so every request reaching the handler
carries an id (an int or a string, modelled as a `JVal`). -/
structure MCPRequest where
  jsonrpc : String
  method : String
  params : McpParams
  id : JVal

/-- The result payloads of the HTTP `/mcp` endpoint.  `weatherText` stands
for the natural-language weather report assembled from the fetched raw data
and the request parameters; its exact display text is elided. -/
inductive HttpResultPayload where
  | toolsList : HttpResultPayload
  | resourcesList : HttpResultPayload
  | promptsList : HttpResultPayload
  | weatherText : ℚ → ℚ → String → String → RawOneCall → HttpResultPayload

/-- An `MCPResponse` of the HTTP server. -/
structure MCPResponse where
  id : JVal
  result : Option HttpResultPayload
  error : Option RpcError

/-- `"location" in arguments and arguments["location"]` — the key must be
present and its value truthy (a non-empty string). -/
def location_arg (args : ToolArguments) : Option String :=
  match args.location with
  | some l => if l = "" then none else some l
  | none => none

/-- The tail of the `get_current_weather` branch of `mcp_endpoint` once
coordinates are known: reads `units`/`lang` defaults and invokes
`weather_service.get_current_weather` (abstracted as `fetchWeather`; its
`.error` covers both the `ValueError`s and the HTTP failures the service can
raise, which the endpoint catches and wraps as -32603).  The returned flag
records that the weather call was attempted. -/
def call_weather_tool (fetchWeather : ℚ → ℚ → String → String → Except String RawOneCall)
    (args : ToolArguments) (reqId : JVal) (lat lon : ℚ) : MCPResponse × Bool :=
  let units := args.units.getD "metric"
  let lang := args.lang.getD "en"
  match fetchWeather lat lon units lang with
  | .error e =>
      ({ id := reqId, result := none,
         error := some { code := -32603, message := "Internal error: " ++ e } }, true)
  | .ok weather_data =>
      ({ id := reqId,
         result := some (.weatherText lat lon units lang weather_data),
         error := none }, true)

/-- `mcp_endpoint` (`mcp_server_http.py`, lines 106–277).  `geocode`
abstracts `geocode_location`: `none` models the geocoding API returning an
empty list, on which the source raises `ValueError(f"Location '{location}'
not found")`.  Every `ValueError` raised in the body is caught by the
endpoint's `except` clause and wrapped as a -32603 response whose message is
`"Internal error: "` followed by the exception text — including the unknown
method and unknown tool cases.  The boolean records whether
`weather_service.get_current_weather` was invoked. -/
def mcp_endpoint (geocode : String → Option (ℚ × ℚ))
    (fetchWeather : ℚ → ℚ → String → String → Except String RawOneCall)
    (request : MCPRequest) : MCPResponse × Bool :=
  if request.method = "tools/list" then
    ({ id := request.id, result := some .toolsList, error := none }, false)
  else if request.method = "tools/call" then
    let tool_name := request.params.name
    let arguments := request.params.arguments.getD emptyToolArguments
    if tool_name = some "get_current_weather" then
      match location_arg arguments with
      | some loc =>
        match geocode loc with
        | none =>
            ({ id := request.id, result := none,
               error := some { code := -32603,
                               message := "Internal error: Location '" ++ loc ++ "' not found" } },
             false)
        | some (lat, lon) =>
            call_weather_tool fetchWeather arguments request.id lat lon
      | none =>
        match arguments.latitude, arguments.longitude with
        | some lat, some lon =>
            call_weather_tool fetchWeather arguments request.id lat lon
        | _, _ =>
            ({ id := request.id, result := none,
               error := some { code := -32603,
                               message := "Internal error: Either 'location' or both 'latitude' and 'longitude' must be provided" } },
             false)
    else
      ({ id := request.id, result := none,
         error := some { code := -32603,
                         message := "Internal error: Unknown tool: " ++ McpServer.pyShow tool_name } },
       false)
  else if request.method = "resources/list" then
    ({ id := request.id, result := some .resourcesList, error := none }, false)
  else if request.method = "prompts/list" then
    ({ id := request.id, result := some .promptsList, error := none }, false)
  else
    ({ id := request.id, result := none,
       error := some { code := -32603,
                       message := "Internal error: Unknown method: " ++ request.method } },
     false)

end McpHttp

/-! ## Claim theorems -/

/-- C4: for every latitude outside [-90, 90] or longitude outside
[-180, 180], `WeatherService.get_current_weather` and
`WeatherService.get_forecast` fail with the invalid-coordinate `ValueError`
before any outbound network call is made (`.error` is returned before a
request is built); for in-range coordinates the request params carry the
coordinates unchanged. -/
theorem coordinate_validation (api_key units lang : String) (lat lon : ℚ) :
    ((lat < -90 ∨ 90 < lat ∨ lon < -180 ∨ 180 < lon) →
      (∃ e, WeatherService.get_current_weather api_key lat lon units lang = .error e) ∧
      (∃ e, WeatherService.get_forecast api_key lat lon units lang = .error e)) ∧
    (-90 ≤ lat → lat ≤ 90 → -180 ≤ lon → lon ≤ 180 →
      (∃ p, WeatherService.get_current_weather api_key lat lon units lang = .ok p ∧
        p.lat = lat ∧ p.lon = lon) ∧
      (∃ p, WeatherService.get_forecast api_key lat lon units lang = .ok p ∧
        p.lat = lat ∧ p.lon = lon)) := by
  constructor
  · intro h
    have hbad : ¬ (-90 ≤ lat ∧ lat ≤ 90) ∨
        ((-90 ≤ lat ∧ lat ≤ 90) ∧ ¬ (-180 ≤ lon ∧ lon ≤ 180)) := by
      by_cases hlat : -90 ≤ lat ∧ lat ≤ 90
      · right
        refine ⟨hlat, fun hlon => ?_⟩
        rcases h with h | h | h | h
        · linarith [hlat.1]
        · linarith [hlat.2]
        · linarith [hlon.1]
        · linarith [hlon.2]
      · left; exact hlat
    rcases hbad with hb | ⟨hlat, hlon⟩
    · exact ⟨⟨.invalidLatitude lat, by simp [WeatherService.get_current_weather, hb]⟩,
             ⟨.invalidLatitude lat, by simp [WeatherService.get_forecast, hb]⟩⟩
    · exact ⟨⟨.invalidLongitude lon, by simp [WeatherService.get_current_weather, hlat, hlon]⟩,
             ⟨.invalidLongitude lon, by simp [WeatherService.get_forecast, hlat, hlon]⟩⟩
  · intro h1 h2 h3 h4
    refine ⟨⟨{ lat := lat, lon := lon, appid := api_key, units := units, lang := lang,
               exclude := some "minutely,hourly,daily,alerts" }, ?_, rfl, rfl⟩,
            ⟨{ lat := lat, lon := lon, appid := api_key, units := units, lang := lang,
               exclude := none }, ?_, rfl, rfl⟩⟩
    · simp [WeatherService.get_current_weather, h1, h2, h3, h4]
    · simp [WeatherService.get_forecast, h1, h2, h3, h4]

/-- Witness for C4: latitude 95 is rejected by both operations; the valid
coordinates (40.71, -74) pass through unchanged. -/
theorem coordinate_validation_witness :
    ((∃ e, WeatherService.get_current_weather "key" 95 0 "metric" "en" = .error e) ∧
     (∃ e, WeatherService.get_forecast "key" 95 0 "metric" "en" = .error e)) ∧
    ((∃ p, WeatherService.get_current_weather "key" (40.71) (-74) "metric" "en" = .ok p ∧
        p.lat = 40.71 ∧ p.lon = -74) ∧
     (∃ p, WeatherService.get_forecast "key" (40.71) (-74) "metric" "en" = .ok p ∧
        p.lat = 40.71 ∧ p.lon = -74)) :=
  ⟨(coordinate_validation "key" "metric" "en" 95 0).1 (by norm_num),
   (coordinate_validation "key" "metric" "en" (40.71) (-74)).2
     (by norm_num) (by norm_num) (by norm_num) (by norm_num)⟩

/-- C8: a stdio input line that is not well-formed JSON is answered with the
-32700 "Parse error" response (with a null id). -/
theorem malformed_line_parse_error (toolCall : Option JVal → JVal → McpServer.RpcResponse) :
    McpServer.stdio_line_response toolCall .malformed =
      some { id := none, result := none,
             error := some { code := -32700, message := "Parse error" } } := rfl

/-- C9: the four formatters are pure functions of their raw input (they read
no state besides the argument and mutate nothing, which the embedding
reflects by their being plain total functions): two runs on equal inputs
give equal outputs. -/
theorem formatters_deterministic (r1 r2 : RawOneCall) (h : r1 = r2) :
    OpenWeatherMapAPI.format_weather_data r1 = OpenWeatherMapAPI.format_weather_data r2 ∧
    WeatherService.format_weather_response r1 = WeatherService.format_weather_response r2 ∧
    OpenWeatherMapAPI.format_forecast_data r1 = OpenWeatherMapAPI.format_forecast_data r2 ∧
    WeatherService.format_forecast_data r1 = WeatherService.format_forecast_data r2 := by
  subst h
  exact ⟨rfl, rfl, rfl, rfl⟩

/-- Witness for C9 at the empty raw object. -/
theorem formatters_deterministic_witness :
    OpenWeatherMapAPI.format_weather_data emptyRawOneCall =
      OpenWeatherMapAPI.format_weather_data emptyRawOneCall ∧
    WeatherService.format_weather_response emptyRawOneCall =
      WeatherService.format_weather_response emptyRawOneCall ∧
    OpenWeatherMapAPI.format_forecast_data emptyRawOneCall =
      OpenWeatherMapAPI.format_forecast_data emptyRawOneCall ∧
    WeatherService.format_forecast_data emptyRawOneCall =
      WeatherService.format_forecast_data emptyRawOneCall :=
  formatters_deterministic emptyRawOneCall emptyRawOneCall rfl

/-- A concrete stand-in for `handle_tool_call` used to instantiate the
dispatcher at closed inputs (its value is irrelevant to the branches the
closed theorems exercise). -/
def toolCall0 : Option JVal → JVal → McpServer.RpcResponse :=
  fun i _ => { id := i, result := none,
               error := some { code := -32603, message := "Tool execution failed" } }

/-- An `initialize` request with the `id` field omitted. -/
def msgInitNoId : McpServer.JsonRpcMessage :=
  { jsonrpc := some "2.0", id := none, method := some "initialize", params := none }

/-- A request for an unknown method with the `id` field omitted. -/
def msgUnknownNoId : McpServer.JsonRpcMessage :=
  { jsonrpc := some "2.0", id := none, method := some "unknown/method", params := none }

/-- Counterexample to C3: a request whose `id` is omitted but whose method is
`initialize` is answered — `handle_mcp_message` checks the known methods
before the notification check, so the "no response" rule does not hold
regardless of method. -/
theorem no_id_initialize_still_answered :
    McpServer.handle_mcp_message toolCall0 msgInitNoId ≠ none := by
  simp [McpServer.handle_mcp_message, msgInitNoId]

/-- C3 (amended): a request with `id` omitted and a method other than
`initialize`, `tools/list` and `tools/call` is treated as a notification and
gets no response; a request with `id` omitted that names one of those three
methods is still answered. -/
theorem notification_no_response (toolCall : Option JVal → JVal → McpServer.RpcResponse)
    (message : McpServer.JsonRpcMessage)
    (hid : message.id = none)
    (h1 : message.method ≠ some "initialize")
    (h2 : message.method ≠ some "tools/list")
    (h3 : message.method ≠ some "tools/call") :
    McpServer.handle_mcp_message toolCall message = none := by
  simp [McpServer.handle_mcp_message, hid, h1, h2, h3]

/-- Witness for C3 (amended): an id-less request for `unknown/method` is
dropped. -/
theorem notification_no_response_witness :
    McpServer.handle_mcp_message toolCall0 msgUnknownNoId = none :=
  notification_no_response toolCall0 msgUnknownNoId rfl
    (by simp [msgUnknownNoId]) (by simp [msgUnknownNoId]) (by simp [msgUnknownNoId])

/-- A geocoding oracle that finds no location (the geocoding API returns an
empty list for every query). -/
def geocode0 : String → Option (ℚ × ℚ) := fun _ => none

/-- A weather-fetch oracle whose outbound call always fails. -/
def fetch0 : ℚ → ℚ → String → String → Except String RawOneCall :=
  fun _ _ _ _ => .error "boom"

/-- An HTTP MCP request naming an unknown method. -/
def reqUnknownMethod : McpHttp.MCPRequest :=
  { jsonrpc := "2.0", method := "unknown/method",
    params := { name := none, arguments := none }, id := .num 1 }

/-- Counterexample to C5: the HTTP `/mcp` dispatcher (one of the two
dispatchers the claim ranges over) answers an unknown method with error code
-32603, not -32601 — the `else` branch raises `ValueError`, which the
catch-all wraps as an internal error. -/
theorem http_unknown_method_not_32601 :
    (McpHttp.mcp_endpoint geocode0 fetch0 reqUnknownMethod).1.error =
      some { code := -32603,
             message := "Internal error: Unknown method: unknown/method" } ∧
    (-32603 : Int) ≠ -32601 := by
  exact ⟨rfl, by decide⟩

/-- C5 (amended): the stdio dispatcher `handle_mcp_message` answers an
unknown method carrying an id with error code -32601 ("Method not found"),
while the HTTP `/mcp` dispatcher answers an unknown method with error code
-32603 ("Internal error: Unknown method: ..."). -/
theorem unknown_method_error_codes
    (toolCall : Option JVal → JVal → McpServer.RpcResponse)
    (message : McpServer.JsonRpcMessage) (v : JVal)
    (hid : message.id = some v)
    (h1 : message.method ≠ some "initialize")
    (h2 : message.method ≠ some "tools/list")
    (h3 : message.method ≠ some "tools/call")
    (geocode : String → Option (ℚ × ℚ))
    (fetchWeather : ℚ → ℚ → String → String → Except String RawOneCall)
    (request : McpHttp.MCPRequest)
    (g1 : request.method ≠ "tools/list")
    (g2 : request.method ≠ "tools/call")
    (g3 : request.method ≠ "resources/list")
    (g4 : request.method ≠ "prompts/list") :
    McpServer.handle_mcp_message toolCall message =
      some { id := some v, result := none,
             error := some { code := -32601,
                             message := "Method not found: " ++ McpServer.pyShow message.method } } ∧
    (McpHttp.mcp_endpoint geocode fetchWeather request).1.error =
      some { code := -32603,
             message := "Internal error: Unknown method: " ++ request.method } := by
  constructor
  · simp [McpServer.handle_mcp_message, hid, h1, h2, h3]
  · simp [McpHttp.mcp_endpoint, g1, g2, g3, g4]

/-- A stdio request for an unknown method that carries an id. -/
def msgUnknownWithId : McpServer.JsonRpcMessage :=
  { jsonrpc := some "2.0", id := some (.num 3), method := some "unknown/method",
    params := none }

/-- Witness for C5 (amended) at concrete unknown-method requests. -/
theorem unknown_method_error_codes_witness :
    McpServer.handle_mcp_message toolCall0 msgUnknownWithId =
      some { id := some (.num 3), result := none,
             error := some { code := -32601,
                             message := "Method not found: " ++ McpServer.pyShow msgUnknownWithId.method } } ∧
    (McpHttp.mcp_endpoint geocode0 fetch0 reqUnknownMethod).1.error =
      some { code := -32603,
             message := "Internal error: Unknown method: " ++ reqUnknownMethod.method } :=
  unknown_method_error_codes toolCall0 msgUnknownWithId (.num 3) rfl
    (by simp [msgUnknownWithId]) (by simp [msgUnknownWithId]) (by simp [msgUnknownWithId])
    geocode0 fetch0 reqUnknownMethod
    (by simp [reqUnknownMethod]) (by simp [reqUnknownMethod])
    (by simp [reqUnknownMethod]) (by simp [reqUnknownMethod])

/-- A raw forecast whose `daily` array has 9 entries. -/
def rawNineDays : RawOneCall :=
  { emptyRawOneCall with daily := some (List.replicate 9 emptyRawDaily) }

/-- Counterexample to C1: `WeatherService.format_forecast_data` (one of the
two `format_forecast_data` functions the claim ranges over) applies no cap —
on a raw object with 9 daily entries its daily list has length 9, not
min(9, 8) = 8. -/
theorem ws_forecast_daily_not_capped :
    ¬ ((WeatherService.format_forecast_data rawNineDays).daily.length =
        min (rawNineDays.daily.getD []).length 8) := by
  simp [WeatherService.format_forecast_data, rawNineDays]

/-- C1 (amended): `OpenWeatherMapAPI.format_forecast_data` truncates —
daily length = min(len(raw daily), 8), hourly length = min(len(raw hourly),
48), source order preserved and entries beyond the cap dropped silently —
while `WeatherService.format_forecast_data` keeps every entry (daily length
= len(raw daily), hourly length = len(raw hourly)), also in source order. -/
theorem forecast_truncation (raw : RawOneCall) :
    ((OpenWeatherMapAPI.format_forecast_data raw).daily.length =
        min (raw.daily.getD []).length 8) ∧
    ((OpenWeatherMapAPI.format_forecast_data raw).hourly.length =
        min (raw.hourly.getD []).length 48) ∧
    (∀ i : ℕ, i < 8 →
      (OpenWeatherMapAPI.format_forecast_data raw).daily[i]? =
        ((raw.daily.getD [])[i]?).map OpenWeatherMapAPI.format_day_entry) ∧
    (∀ i : ℕ, i < 48 →
      (OpenWeatherMapAPI.format_forecast_data raw).hourly[i]? =
        ((raw.hourly.getD [])[i]?).map OpenWeatherMapAPI.format_hour_entry) ∧
    ((WeatherService.format_forecast_data raw).daily.length =
        (raw.daily.getD []).length) ∧
    ((WeatherService.format_forecast_data raw).hourly.length =
        (raw.hourly.getD []).length) ∧
    (∀ i : ℕ,
      (WeatherService.format_forecast_data raw).daily[i]? =
        ((raw.daily.getD [])[i]?).map WeatherService.format_daily_entry) ∧
    (∀ i : ℕ,
      (WeatherService.format_forecast_data raw).hourly[i]? =
        ((raw.hourly.getD [])[i]?).map WeatherService.format_hourly_entry) := by
  refine ⟨?_, ?_, ?_, ?_, ?_, ?_, ?_, ?_⟩
  · simp [OpenWeatherMapAPI.format_forecast_data, Nat.min_comm]
  · simp [OpenWeatherMapAPI.format_forecast_data, Nat.min_comm]
  · intro i hi
    simp [OpenWeatherMapAPI.format_forecast_data, List.getElem?_map,
          List.getElem?_take, hi]
  · intro i hi
    simp [OpenWeatherMapAPI.format_forecast_data, List.getElem?_map,
          List.getElem?_take, hi]
  · simp [WeatherService.format_forecast_data]
  · simp [WeatherService.format_forecast_data]
  · intro i
    simp [WeatherService.format_forecast_data, List.getElem?_map]
  · intro i
    simp [WeatherService.format_forecast_data, List.getElem?_map]

/-- Witness for C1 (amended) on the 9-day raw forecast: the API formatter
caps at 8 and keeps entry 0; the service formatter keeps all 9. -/
theorem forecast_truncation_witness :
    ((OpenWeatherMapAPI.format_forecast_data rawNineDays).daily.length =
        min (rawNineDays.daily.getD []).length 8) ∧
    ((OpenWeatherMapAPI.format_forecast_data rawNineDays).daily[0]? =
        ((rawNineDays.daily.getD [])[0]?).map OpenWeatherMapAPI.format_day_entry) ∧
    ((WeatherService.format_forecast_data rawNineDays).daily.length =
        (rawNineDays.daily.getD []).length) :=
  ⟨(forecast_truncation rawNineDays).1,
   (forecast_truncation rawNineDays).2.2.1 0 (by norm_num),
   (forecast_truncation rawNineDays).2.2.2.2.1⟩

/-- A raw current-weather object whose `current.weather` list is empty. -/
def rawEmptyWeatherList : RawOneCall :=
  { emptyRawOneCall with current := some { emptyRawCurrent with weather := some [] } }

/-- Counterexample to C2: on an empty `weather` list,
`WeatherService.format_weather_response` (one of the two current-weather
formatters the claim ranges over) outputs the empty dict `{}` as the
`weather` field — its description is absent, not the string "N/A". -/
theorem ws_empty_weather_not_na :
    (WeatherService.format_weather_response rawEmptyWeatherList).current.weather.description
      ≠ some "N/A" := by
  simp [WeatherService.format_weather_response, WeatherService.first_weather,
        rawEmptyWeatherList, emptyRawCurrent, emptyWeatherInfo]

/-- C2 (amended): on a raw object whose `current.weather` list is empty,
`OpenWeatherMapAPI.format_weather_data` outputs the placeholders
`weather = "N/A"` and `weather_main = "N/A"`, while
`WeatherService.format_weather_response` outputs the empty weather dict
(description and main both absent); neither formatter throws (both are total
functions of the raw object). -/
theorem empty_weather_list_placeholders (raw : RawOneCall) (cur : RawCurrent)
    (hc : raw.current = some cur) (hw : cur.weather = some []) :
    (OpenWeatherMapAPI.format_weather_data raw).weather = "N/A" ∧
    (OpenWeatherMapAPI.format_weather_data raw).weather_main = "N/A" ∧
    (WeatherService.format_weather_response raw).current.weather = emptyWeatherInfo := by
  refine ⟨?_, ?_, ?_⟩ <;>
    simp [OpenWeatherMapAPI.format_weather_data, OpenWeatherMapAPI.weather_info_of,
          WeatherService.format_weather_response, WeatherService.first_weather,
          hc, hw, emptyWeatherInfo]

/-- Witness for C2 (amended) at the concrete empty-weather raw object. -/
theorem empty_weather_list_placeholders_witness :
    (OpenWeatherMapAPI.format_weather_data rawEmptyWeatherList).weather = "N/A" ∧
    (OpenWeatherMapAPI.format_weather_data rawEmptyWeatherList).weather_main = "N/A" ∧
    (WeatherService.format_weather_response rawEmptyWeatherList).current.weather =
      emptyWeatherInfo :=
  empty_weather_list_placeholders rawEmptyWeatherList
    { emptyRawCurrent with weather := some [] } rfl rfl

/-- C6: the current-weather formatters are total on dict-shaped raw objects
(they are plain total functions in the embedding — no missing key can make
them fail), and every missing optional field maps to an absent value in the
output: `None`/null for the scalar and location fields, and the documented
fallback for the `weather` field (the "N/A" placeholders in
`format_weather_data`, the empty dict in `format_weather_response`).  `cur`
is the effective `current` sub-object (`raw.get("current", {})`). -/
theorem missing_fields_lenient (raw : RawOneCall) (cur : RawCurrent)
    (hc : raw.current.getD emptyRawCurrent = cur) :
    (cur.temp = none → (OpenWeatherMapAPI.format_weather_data raw).temperature = none) ∧
    (cur.feels_like = none → (OpenWeatherMapAPI.format_weather_data raw).feels_like = none) ∧
    (cur.humidity = none → (OpenWeatherMapAPI.format_weather_data raw).humidity = none) ∧
    (cur.pressure = none → (OpenWeatherMapAPI.format_weather_data raw).pressure = none) ∧
    (cur.wind_speed = none → (OpenWeatherMapAPI.format_weather_data raw).wind_speed = none) ∧
    (cur.wind_deg = none → (OpenWeatherMapAPI.format_weather_data raw).wind_deg = none) ∧
    (cur.clouds = none → (OpenWeatherMapAPI.format_weather_data raw).clouds = none) ∧
    (cur.visibility = none → (OpenWeatherMapAPI.format_weather_data raw).visibility = none) ∧
    (cur.uvi = none → (OpenWeatherMapAPI.format_weather_data raw).uvi = none) ∧
    (raw.timezone = none → (OpenWeatherMapAPI.format_weather_data raw).timezone = none) ∧
    (raw.lat = none → (OpenWeatherMapAPI.format_weather_data raw).lat = none) ∧
    (raw.lon = none → (OpenWeatherMapAPI.format_weather_data raw).lon = none) ∧
    (cur.weather = none →
      (OpenWeatherMapAPI.format_weather_data raw).weather = "N/A" ∧
      (OpenWeatherMapAPI.format_weather_data raw).weather_main = "N/A") ∧
    (raw.lat = none → (WeatherService.format_weather_response raw).location.latitude = none) ∧
    (raw.lon = none → (WeatherService.format_weather_response raw).location.longitude = none) ∧
    (raw.timezone = none → (WeatherService.format_weather_response raw).location.timezone = none) ∧
    (cur.dt = none → (WeatherService.format_weather_response raw).current.timestamp = none) ∧
    (cur.temp = none → (WeatherService.format_weather_response raw).current.temperature = none) ∧
    (cur.feels_like = none → (WeatherService.format_weather_response raw).current.feels_like = none) ∧
    (cur.pressure = none → (WeatherService.format_weather_response raw).current.pressure = none) ∧
    (cur.humidity = none → (WeatherService.format_weather_response raw).current.humidity = none) ∧
    (cur.dew_point = none → (WeatherService.format_weather_response raw).current.dew_point = none) ∧
    (cur.uvi = none → (WeatherService.format_weather_response raw).current.uvi = none) ∧
    (cur.clouds = none → (WeatherService.format_weather_response raw).current.clouds = none) ∧
    (cur.visibility = none → (WeatherService.format_weather_response raw).current.visibility = none) ∧
    (cur.wind_speed = none → (WeatherService.format_weather_response raw).current.wind_speed = none) ∧
    (cur.wind_deg = none → (WeatherService.format_weather_response raw).current.wind_deg = none) ∧
    (cur.weather = none →
      (WeatherService.format_weather_response raw).current.weather = emptyWeatherInfo) := by
  subst hc
  refine ⟨?_, ?_, ?_, ?_, ?_, ?_, ?_, ?_, ?_, ?_, ?_, ?_, ?_, ?_, ?_, ?_, ?_, ?_,
          ?_, ?_, ?_, ?_, ?_, ?_, ?_, ?_, ?_, ?_⟩ <;>
    · intro h
      simp [OpenWeatherMapAPI.format_weather_data, OpenWeatherMapAPI.weather_info_of,
            WeatherService.format_weather_response, WeatherService.first_weather,
            emptyWeatherInfo, h]

/-- Witness for C6 at the all-empty raw object. -/
theorem missing_fields_lenient_witness :
    (OpenWeatherMapAPI.format_weather_data emptyRawOneCall).temperature = none ∧
    (OpenWeatherMapAPI.format_weather_data emptyRawOneCall).weather = "N/A" ∧
    (WeatherService.format_weather_response emptyRawOneCall).current.temperature = none ∧
    (WeatherService.format_weather_response emptyRawOneCall).current.weather =
      emptyWeatherInfo := by
  obtain ⟨a1, a2, a3, a4, a5, a6, a7, a8, a9, a10, a11, a12, a13, b1, b2, b3, b4,
          b5, b6, b7, b8, b9, b10, b11, b12, b13, b14, b15⟩ :=
    missing_fields_lenient emptyRawOneCall emptyRawCurrent rfl
  exact ⟨a1 rfl, (a13 rfl).1, b5 rfl, b15 rfl⟩

/-- C7: a `tools/call` request naming `get_current_weather` with a truthy
free-text `location` argument for which geocoding yields no result is
answered with the invalid-argument error (`ValueError`, surfaced by this
dispatcher as code -32603 per the error taxonomy) whose message names the
unresolved location string, and `weather_service.get_current_weather` is
never invoked (the flag is `false`). -/
theorem geocode_failure_no_weather_call
    (geocode : String → Option (ℚ × ℚ))
    (fetchWeather : ℚ → ℚ → String → String → Except String RawOneCall)
    (request : McpHttp.MCPRequest) (loc : String)
    (hm : request.method = "tools/call")
    (hn : request.params.name = some "get_current_weather")
    (hloc : (request.params.arguments.getD McpHttp.emptyToolArguments).location = some loc)
    (hne : loc ≠ "")
    (hg : geocode loc = none) :
    McpHttp.mcp_endpoint geocode fetchWeather request =
      ({ id := request.id, result := none,
         error := some { code := -32603,
                         message := "Internal error: Location '" ++ loc ++ "' not found" } },
       false) := by
  simp [McpHttp.mcp_endpoint, McpHttp.location_arg, hm, hn, hloc, hne, hg]

/-- A `tools/call` request for a location the geocoder cannot resolve. -/
def reqNowhere : McpHttp.MCPRequest :=
  { jsonrpc := "2.0", method := "tools/call",
    params := { name := some "get_current_weather",
                arguments := some { location := some "Nowhere12345XYZ",
                                    latitude := none, longitude := none,
                                    units := none, lang := none } },
    id := .num 7 }

/-- Witness for C7: the unresolvable location "Nowhere12345XYZ" yields the
-32603 invalid-argument response naming it, with no weather call. -/
theorem geocode_failure_no_weather_call_witness :
    McpHttp.mcp_endpoint geocode0 fetch0 reqNowhere =
      ({ id := reqNowhere.id, result := none,
         error := some { code := -32603,
                         message := "Internal error: Location '" ++ "Nowhere12345XYZ" ++ "' not found" } },
       false) :=
  geocode_failure_no_weather_call geocode0 fetch0 reqNowhere "Nowhere12345XYZ"
    rfl rfl rfl (by decide) rfl

/-- Counterexample to C10: on a daily entry with no keys at all, the
formatted entry does not map every non-rain/snow field to null — its
`weather` field serialises to the empty object `{}`, not to null. -/
theorem daily_missing_weather_not_null :
    ¬ (∀ k v, k ≠ "rain" → k ≠ "snow" →
        jlookup k (WeatherService.DailyOut.toJson
          (WeatherService.format_daily_entry emptyRawDaily)) = some v →
        v = JVal.null) := by
  intro h
  have hw := h "weather" (JVal.obj []) (by decide) (by decide) (by
    simp [WeatherService.DailyOut.toJson, WeatherService.format_daily_entry,
          WeatherService.first_weather, WeatherService.WeatherInfo.toJVal,
          emptyRawDaily, emptyWeatherInfo, jlookup])
  exact JVal.noConfusion hw

/-- C10 (amended): in a daily entry of `WeatherService.format_forecast_data`,
a missing `rain` or `snow` key yields the number 0 (not null); the other
missing scalar fields (`dt`, `pressure`, `humidity`, `wind_speed`,
`wind_deg`, `clouds`) map to null; missing `temp`/`feels_like` keys map to
sub-objects all of whose components are null; and a missing `weather` key
maps to the empty object `{}`, not null. -/
theorem daily_entry_defaults (day : RawDaily) :
    (day.rain = none → (WeatherService.format_daily_entry day).rain = 0) ∧
    (day.snow = none → (WeatherService.format_daily_entry day).snow = 0) ∧
    (day.dt = none → (WeatherService.format_daily_entry day).dt = none) ∧
    (day.pressure = none → (WeatherService.format_daily_entry day).pressure = none) ∧
    (day.humidity = none → (WeatherService.format_daily_entry day).humidity = none) ∧
    (day.wind_speed = none → (WeatherService.format_daily_entry day).wind_speed = none) ∧
    (day.wind_deg = none → (WeatherService.format_daily_entry day).wind_deg = none) ∧
    (day.clouds = none → (WeatherService.format_daily_entry day).clouds = none) ∧
    (day.temp = none → (WeatherService.format_daily_entry day).temp = emptyRawTemp) ∧
    (day.feels_like = none →
      (WeatherService.format_daily_entry day).feels_like = emptyRawFeels) ∧
    (day.weather = none →
      (WeatherService.format_daily_entry day).weather = emptyWeatherInfo ∧
      jlookup "weather" (WeatherService.DailyOut.toJson
        (WeatherService.format_daily_entry day)) = some (JVal.obj [])) := by
  refine ⟨?_, ?_, ?_, ?_, ?_, ?_, ?_, ?_, ?_, ?_, ?_⟩ <;>
    · intro h
      simp [WeatherService.format_daily_entry, WeatherService.first_weather,
            WeatherService.DailyOut.toJson, WeatherService.WeatherInfo.toJVal,
            jlookup, emptyRawTemp, emptyRawFeels, emptyWeatherInfo, h]

/-- Witness for C10 (amended) at the empty daily entry. -/
theorem daily_entry_defaults_witness :
    (WeatherService.format_daily_entry emptyRawDaily).rain = 0 ∧
    (WeatherService.format_daily_entry emptyRawDaily).snow = 0 ∧
    (WeatherService.format_daily_entry emptyRawDaily).dt = none ∧
    (WeatherService.format_daily_entry emptyRawDaily).weather = emptyWeatherInfo := by
  obtain ⟨d1, d2, d3, d4, d5, d6, d7, d8, d9, d10, d11⟩ :=
    daily_entry_defaults emptyRawDaily
  exact ⟨d1 rfl, d2 rfl, d3 rfl, (d11 rfl).1⟩
